import Mathlib

/-!
Shallow embedding of the Vasitos Whisper bot (src/main.py): consent-gated
voice-recording orchestration.  Pure data and the decision logic of each
handler are translated into executable Lean definitions; external effects
(file moves, queue publishes, cue playback, task control) are recorded as
fields of explicit result structures.  Nondeterministic inputs of the code
(fresh uuid4 identifiers, wall-clock timestamps) are passed in as parameters.
-/

namespace WhisperBot

/-- A guild member as seen through the Discord gateway: numeric id,
username and bot flag. -/
structure Member where
  id : Nat
  username : String
  bot : Bool
  deriving DecidableEq, Repr

/-- The consent document `consent.json`: mapping from the string form of a
user id to the granted flag, as loaded by `ConsentManager.load`.  Absence of
a key means undecided. -/
abbrev ConsentRecord := List (String × Bool)

/-- Embeds `consent_data.get(str(user_id), False)`: dictionary get with default
`False`. -/
def consentGet (cd : ConsentRecord) (k : String) : Bool :=
  (List.lookup k cd).getD false

/-- Embeds `ctx.guild.get_member(user_id)`: first member of the guild with the
given id, if any. -/
def getMember (guild : List Member) (uid : Nat) : Option Member :=
  guild.find? (fun m => m.id == uid)

/-- Python word characters `\w` restricted to ASCII: letters, digits and
underscore. -/
def isWordChar (c : Char) : Bool :=
  c.isAlpha || c.isDigit || c = '_'

/-- Embeds `re.sub(r"[^\w\-_]", "_", ...)` applied to one character: characters
outside `\w` and `-` are replaced by `_`. -/
def sanitizeChar (c : Char) : Char :=
  if isWordChar c || c = '-' then c else '_'

/-- Embeds `.strip("_")`: drop leading and trailing underscores. -/
def stripUnderscores (l : List Char) : List Char :=
  ((l.dropWhile (fun c => c = '_')).reverse.dropWhile (fun c => c = '_')).reverse

/-- Embeds `re.sub(r"[^\w\-_]", "_", member.username).strip("_")[:64]` from
`process_user_recording`. -/
def safeName (username : String) : String :=
  String.mk ((stripUnderscores (username.data.map sanitizeChar)).take 64)

/-- Embeds `Config.AUDIOS_DIR`. -/
def audiosDir : String := "audio"

/-- Embeds `Config.AUDIOS_DIR / safe_name / timestamp`. -/
def userDir (name timestamp : String) : String :=
  audiosDir ++ "/" ++ name ++ "/" ++ timestamp

/-- Embeds the path `(user_dir / f"{identifier}-{timestamp}").with_suffix(".wav")`: the uuid
identifier holds no dot, so `with_suffix` appends `.wav`. -/
def destPath (name identifier timestamp : String) : String :=
  userDir name timestamp ++ "/" ++ identifier ++ "-" ++ timestamp ++ ".wav"

/-- The JSON document published to the outbound `AudioQueue` for one
consented segment. -/
structure PublishMsg where
  id : String
  path : String
  userId : Nat
  user : String
  channelId : Nat
  guildId : Nat
  deriving DecidableEq, Repr

/-- The observable effects of one `process_user_recording` call:
whether `file_path.unlink` ran, where `shutil.move` relocated the artifact
(if anywhere), the message handed to `redis_client.publish` (if any), and
the returned value. -/
structure ProcessResult where
  deleted : Bool
  movedTo : Option String
  published : Option PublishMsg
  result : Option String
  deriving DecidableEq, Repr

/-- Embeds `process_user_recording(ctx, user_id, file_path, consent_data,
channel_id)`.  `guild`/`guildId` stand for `ctx.guild` and `ctx.guild_id`;
`identifier` is the fresh `uuid.uuid4()` string and `timestamp` the
`datetime.now(timezone.utc)` formatting, both passed in as parameters. -/
def process_user_recording (guild : List Member) (guildId : Nat) (userId : Nat)
    (filePath : String) (consentData : ConsentRecord) (channelId : Nat)
    (identifier timestamp : String) : ProcessResult :=
  if !(consentGet consentData (toString userId)) then
    { deleted := true, movedTo := none, published := none, result := none }
  else
    match getMember guild userId with
    | none => { deleted := false, movedTo := none, published := none, result := none }
    | some member =>
      if member.bot then
        { deleted := false, movedTo := none, published := none, result := none }
      else
        let dest := destPath (safeName member.username) identifier timestamp
        { deleted := false
          movedTo := some dest
          published := some
            { id := identifier, path := dest, userId := userId,
              user := member.username, channelId := channelId, guildId := guildId }
          result := some dest }

/-- Models `interactions.ActiveVoiceState` as the orchestrator observes it: the
voice channel it is connected to and the `connected` flag. -/
structure VoiceState where
  channelId : Nat
  connected : Bool
  deriving DecidableEq, Repr

/-- Embeds `VoiceStateManager.active_recordings`: the guild-id keyed dictionary of
active voice states. -/
abbrev Registry := List (Nat × VoiceState)

/-- Remove the entry for a guild, if present (the mutation done by
`dict.pop`). -/
def eraseKey (m : Registry) (g : Nat) : Registry :=
  m.filter (fun p => p.1 != g)

/-- Embeds `VoiceStateManager.add`: plain dictionary assignment
`self.active_recordings[guild_id] = voice_state`, embedded as an
association-list update (observationally equal through `get`/`remove`). -/
def vsmAdd (m : Registry) (g : Nat) (vs : VoiceState) : Registry :=
  (g, vs) :: eraseKey m g

/-- Embeds `VoiceStateManager.get`: `self.active_recordings.get(guild_id)`. -/
def vsmGet (m : Registry) (g : Nat) : Option VoiceState :=
  List.lookup g m

/-- Embeds `VoiceStateManager.remove`: `self.active_recordings.pop(guild_id, None)`,
returning the popped state and the updated dictionary. -/
def vsmRemove (m : Registry) (g : Nat) : Option VoiceState × Registry :=
  (List.lookup g m, eraseKey m g)

/-- The per-participant processing shared by the periodic
`scheduled_transcription_task` and by `stop_recording`: map
`process_user_recording` over `voice_state.recorder.output.items()`
(`pending`, pairs of user id and raw artifact path), with the consent data
loaded once for the whole flush.  `ident` supplies each call's fresh uuid. -/
def flushRun (guild : List Member) (guildId channelId : Nat) (cd : ConsentRecord)
    (pending : List (Nat × String)) (ident : Nat → String) (timestamp : String) :
    List ProcessResult :=
  pending.map (fun p =>
    process_user_recording guild guildId p.1 p.2 cd channelId (ident p.1) timestamp)

/-- The messages a flush hands to `redis_client.publish` on the
`AudioQueue`. -/
def flushPublishes (guild : List Member) (guildId channelId : Nat)
    (cd : ConsentRecord) (pending : List (Nat × String)) (ident : Nat → String)
    (timestamp : String) : List PublishMsg :=
  (flushRun guild guildId channelId cd pending ident timestamp).filterMap
    (fun r => r.published)

/-- Effects of the periodic `scheduled_transcription_task` body for one guild:
the published messages and the `successful` count, empty when no recording is
registered for the guild. -/
def scheduled_transcription_task (registry : Registry) (guildId : Nat)
    (guild : List Member) (cd : ConsentRecord) (pending : List (Nat × String))
    (ident : Nat → String) (timestamp : String) : List PublishMsg × Nat :=
  match vsmGet registry guildId with
  | none => ([], 0)
  | some vs =>
    let rs := flushRun guild guildId vs.channelId cd pending ident timestamp
    (rs.filterMap (fun r => r.published),
     (rs.filter (fun r => r.result.isSome)).length)

/-- Outcome of the `/start` command's guard clauses; the success branch
(connect, start capture, register, cue, consent requests) is collapsed to
`started`. -/
inductive StartOutcome where
  | notInVoice
  | alreadyRecording
  | started
  deriving DecidableEq, Repr

/-- Embeds `start_recording`: the command first replies `NotInVoice` when
`ctx.author.voice`/`.channel` is absent, and only then replies
`AlreadyRecording` when the manager already holds a state for the guild.
`authorVoiceChannel` is `ctx.author.voice.channel`'s id when present. -/
def start_recording (registry : Registry) (guildId : Nat)
    (authorVoiceChannel : Option Nat) : StartOutcome :=
  if authorVoiceChannel.isNone then .notInVoice
  else if (vsmGet registry guildId).isSome then .alreadyRecording
  else .started

/-- Observable effects of the `/stop` command. -/
structure StopResult where
  noActive : Bool
  registryAfter : Registry
  publishes : List PublishMsg
  stopCue : Bool
  disconnected : Bool
  successful : Nat
  deriving DecidableEq, Repr

/-- Embeds `stop_recording`: pop the guild's voice state (reply `NoActiveRecording`
when there is none), stop the rotation task and the capture, queue the stop
cue, run the final consent-filtered flush over the recorder output, report
the count, and disconnect. -/
def stop_recording (registry : Registry) (guildId : Nat) (guild : List Member)
    (cd : ConsentRecord) (pending : List (Nat × String)) (ident : Nat → String)
    (timestamp : String) : StopResult :=
  match vsmRemove registry guildId with
  | (none, _) =>
    { noActive := true, registryAfter := registry, publishes := [],
      stopCue := false, disconnected := false, successful := 0 }
  | (some vs, rest) =>
    let rs := flushRun guild guildId vs.channelId cd pending ident timestamp
    { noActive := false
      registryAfter := rest
      publishes := rs.filterMap (fun r => r.published)
      stopCue := true
      disconnected := true
      successful := (rs.filter (fun r => r.result.isSome)).length }

/-- A `VoiceUserLeave` gateway event: the leaving author, the channel it
refers to and the members still listed on that channel. -/
structure LeaveEvent where
  authorId : Nat
  authorBot : Bool
  channelId : Nat
  guildId : Nat
  members : List Member
  deriving DecidableEq, Repr

/-- Observable effects of `on_voice_user_leave`. -/
structure LeaveResult where
  registryAfter : Registry
  taskStopped : Bool
  disconnected : Bool
  removed : Bool
  departureMsg : Bool
  publishes : List PublishMsg
  stopCue : Bool
  deriving DecidableEq, Repr

/-- Result of `on_voice_user_leave` doing nothing: every early return leaves the
registry untouched and performs no effect. -/
def leaveNoEffect (registry : Registry) : LeaveResult :=
  { registryAfter := registry, taskStopped := false, disconnected := false,
    removed := false, departureMsg := false, publishes := [], stopCue := false }

/-- The `remaining` list computed by `on_voice_user_leave`: channel members
that are not bots, that HAVE an entry in the consent document (whatever its
value), and that are not the leaving author. -/
def remainingMembers (cd : ConsentRecord) (ev : LeaveEvent) : List Member :=
  ev.members.filter (fun m =>
    !m.bot && (List.lookup (toString m.id) cd).isSome && m.id != ev.authorId)

/-- Embeds `on_voice_user_leave`: ignore bot/self departures and channels without a
registered recording; otherwise, when `remaining` is empty, stop the rotation
task, disconnect, pop the registry entry and send the departure message.  No
`stop_recording` call, no final flush, no publish and no stop cue occur on
this path. -/
def on_voice_user_leave (botUserId : Nat) (registry : Registry)
    (cd : ConsentRecord) (ev : LeaveEvent) : LeaveResult :=
  if ev.authorBot || ev.authorId == botUserId then leaveNoEffect registry
  else
    match vsmGet registry ev.guildId with
    | none => leaveNoEffect registry
    | some vs =>
      if ev.channelId != vs.channelId then leaveNoEffect registry
      else if (remainingMembers cd ev).isEmpty then
        { registryAfter := eraseKey registry ev.guildId, taskStopped := true,
          disconnected := true, removed := true, departureMsg := true,
          publishes := [], stopCue := false }
      else leaveNoEffect registry

/-- The reply `handle_consent_response` sends (always ephemeral), or the
exception path when unpacking/parsing the custom id fails. -/
inductive ConsentReply where
  | rejection
  | saved
  | crash
  deriving DecidableEq, Repr

/-- Embeds `str.split(sep)` on a one-character separator, over the character
list. -/
def splitSepAux (sep : Char) : List Char → List Char → List (List Char)
  | [], acc => [acc.reverse]
  | c :: cs, acc =>
    if c = sep then acc.reverse :: splitSepAux sep cs []
    else splitSepAux sep cs (c :: acc)

/-- Embeds `s.split("_")`-style splitting used on the button's custom id. -/
def splitSep (sep : Char) (s : String) : List String :=
  (splitSepAux sep s.data []).map String.mk

/-- Embeds `int(s)` restricted to unsigned decimal digit strings; any other input
raises (`none`). -/
def parseNatAux : List Char → Nat → Option Nat
  | [], acc => some acc
  | c :: cs, acc =>
    if c.isDigit then parseNatAux cs (acc * 10 + (c.toNat - 48)) else none

/-- Embeds `int(s)` on the user-id component of the custom id. -/
def parseNat (s : String) : Option Nat :=
  match s.data with
  | [] => none
  | l => parseNatAux l 0

/-- Embeds `custom_id.split("_")` destructured as `_, action, user_id`: Python
raises unless the split has exactly three parts. -/
def parseCustomId (s : String) : Option (String × String) :=
  match splitSep '_' s with
  | [_, action, uid] => some (action, uid)
  | _ => none

/-- Dictionary assignment `consent_data[user_id] = value` on the consent
document. -/
def setConsent (cd : ConsentRecord) (k : String) (v : Bool) : ConsentRecord :=
  if (List.lookup k cd).isSome then
    cd.map (fun p => if p.1 == k then (k, v) else p)
  else cd ++ [(k, v)]

/-- Embeds `handle_consent_response`: unpack the component custom id, reject
responders whose id differs from the embedded participant id without touching
the store, otherwise load-mutate-save the consent document with
`action == "allow"`. -/
def handle_consent_response (responderId : Nat) (customId : String)
    (store : ConsentRecord) : ConsentRecord × ConsentReply :=
  match parseCustomId customId with
  | none => (store, .crash)
  | some (action, uidStr) =>
    match parseNat uidStr with
    | none => (store, .crash)
    | some uid =>
      if responderId != uid then (store, .rejection)
      else (setConsent store uidStr (action == "allow"), .saved)

/-- One message yielded by `queue.listen()` in `on_ready`: its pubsub type
flag, whether `json.loads(message["data"])` succeeds, the `guildId` field of
the parsed body, and whether `message["channel"]` is the
`RejectedAudioQueue`. -/
structure RMsg where
  isMessage : Bool
  parses : Bool
  guildId : Nat
  onRejected : Bool
  deriving DecidableEq, Repr

/-- The consumer loop's mutable state: the process-wide `counter` and the
guilds for which the error cue has been played, in order. -/
structure RejState where
  counter : Nat
  plays : List Nat
  deriving DecidableEq, Repr

/-- One iteration of the `on_ready` consumer loop.  Non-`message` types are
skipped before parsing; a `json.loads` failure raises out of the loop
(`Except.error`); on the rejected queue, `counter != 7` hits `continue`
(skipping the trailing `counter += 1`); at `counter == 7` with a registered,
connected state the error cue is played and `counter` is reset to zero before
the trailing increment runs. -/
def rejStep (registry : Registry) (st : RejState) (msg : RMsg) :
    Except Unit RejState :=
  if !msg.isMessage then .ok st
  else if !msg.parses then .error ()
  else if msg.onRejected then
    if st.counter != 7 then .ok st
    else
      match vsmGet registry msg.guildId with
      | some vs =>
        if !vs.connected then .ok st
        else .ok { counter := 0 + 1, plays := st.plays ++ [msg.guildId] }
      | none => .ok { counter := st.counter + 1, plays := st.plays }
  else .ok { counter := st.counter + 1, plays := st.plays }

/-- The `on_ready` consumer loop folded over a finite prefix of the message
stream; an `Except.error` aborts the remainder of the stream, as the raised
exception terminates the `async for`. -/
def rejRun (registry : Registry) (st : RejState) : List RMsg → Except Unit RejState
  | [] => .ok st
  | m :: ms =>
    match rejStep registry st m with
    | .ok st2 => rejRun registry st2 ms
    | .error e => .error e

/-! ## Helper lemmas -/

/-- A publish only happens for a participant whose loaded consent value is
`true`; the published message carries that participant's id. -/
theorem published_implies_consented (guild : List Member) (guildId uid : Nat)
    (fp : String) (cd : ConsentRecord) (channelId : Nat) (i t : String)
    (msg : PublishMsg)
    (h : (process_user_recording guild guildId uid fp cd channelId i t).published
          = some msg) :
    consentGet cd (toString uid) = true ∧ msg.userId = uid := by
  unfold process_user_recording at h
  by_cases hc : consentGet cd (toString uid)
  · refine ⟨hc, ?_⟩
    simp only [hc, Bool.not_true, Bool.false_eq_true, if_false] at h
    cases hm : getMember guild uid with
    | none => rw [hm] at h; simp at h
    | some m =>
      rw [hm] at h
      by_cases hb : m.bot
      · simp [hb] at h
      · simp only [hb, Bool.false_eq_true, if_false] at h
        simp only [Option.some.injEq] at h
        subst h
        rfl
  · simp only [Bool.not_eq_true] at hc
    simp [hc] at h

/-- Membership in a flush's publish list comes from one pending artifact's
`process_user_recording` call. -/
theorem mem_flushPublishes (guild : List Member) (guildId channelId : Nat)
    (cd : ConsentRecord) (pending : List (Nat × String)) (ident : Nat → String)
    (ts : String) (msg : PublishMsg)
    (h : msg ∈ flushPublishes guild guildId channelId cd pending ident ts) :
    ∃ p ∈ pending,
      (process_user_recording guild guildId p.1 p.2 cd channelId (ident p.1) ts).published
        = some msg := by
  unfold flushPublishes flushRun at h
  rw [List.mem_filterMap] at h
  obtain ⟨r, hr, hpub⟩ := h
  rw [List.mem_map] at hr
  obtain ⟨p, hp, hrp⟩ := hr
  exact ⟨p, hp, by rw [hrp]; exact hpub⟩

/-! ## Claims -/

/-- Claim C1: in every flush (the periodic `scheduled_transcription_task`
and the stop-triggered one both run `flushRun`), an artifact whose
participant has `granted=false` or no entry in the loaded consent record is
deleted from disk, produces no segment path, and no message with that
participant's id is ever published to the outbound queue. -/
theorem c1_unconsented_discarded_never_published (guild : List Member)
    (guildId channelId : Nat) (cd : ConsentRecord)
    (pending : List (Nat × String)) (ident : Nat → String) (ts : String)
    (uid : Nat) (fp : String)
    (hmem : (uid, fp) ∈ pending)
    (hc : List.lookup (toString uid) cd = some false ∨
          List.lookup (toString uid) cd = none) :
    (process_user_recording guild guildId uid fp cd channelId (ident uid) ts).deleted
        = true ∧
    (process_user_recording guild guildId uid fp cd channelId (ident uid) ts).published
        = none ∧
    (process_user_recording guild guildId uid fp cd channelId (ident uid) ts).result
        = none ∧
    ∀ msg ∈ flushPublishes guild guildId channelId cd pending ident ts,
      msg.userId ≠ uid := by
  have hfalse : consentGet cd (toString uid) = false := by
    unfold consentGet
    cases hc with
    | inl h => rw [h]; rfl
    | inr h => rw [h]; rfl
  have hstep :
      process_user_recording guild guildId uid fp cd channelId (ident uid) ts =
        { deleted := true, movedTo := none, published := none, result := none } := by
    unfold process_user_recording
    rw [hfalse]
    rfl
  refine ⟨by rw [hstep], by rw [hstep], by rw [hstep], ?_⟩
  intro msg hmsg heq
  obtain ⟨p, _, hpub⟩ :=
    mem_flushPublishes guild guildId channelId cd pending ident ts msg hmsg
  obtain ⟨hcons, huid⟩ :=
    published_implies_consented guild guildId p.1 p.2 cd channelId (ident p.1) ts msg hpub
  rw [heq] at huid
  rw [← huid] at hcons
  rw [hfalse] at hcons
  exact Bool.false_ne_true hcons

/-- Witness for C1: a participant with no consent entry, on a concrete
flush. -/
theorem c1_unconsented_discarded_never_published_witness :
    (process_user_recording [⟨3, "bob", false⟩] 1 3 "audio/a.wav" [("4", true)] 5
        ((fun _ => "u1") 3) "t").deleted = true ∧
    (process_user_recording [⟨3, "bob", false⟩] 1 3 "audio/a.wav" [("4", true)] 5
        ((fun _ => "u1") 3) "t").published = none ∧
    (process_user_recording [⟨3, "bob", false⟩] 1 3 "audio/a.wav" [("4", true)] 5
        ((fun _ => "u1") 3) "t").result = none ∧
    ∀ msg ∈ flushPublishes [⟨3, "bob", false⟩] 1 5 [("4", true)]
        [(3, "audio/a.wav")] (fun _ => "u1") "t",
      msg.userId ≠ 3 :=
  c1_unconsented_discarded_never_published [⟨3, "bob", false⟩] 1 5 [("4", true)]
    [(3, "audio/a.wav")] (fun _ => "u1") "t" 3 "audio/a.wav" (by decide)
    (Or.inr rfl)

/-- Claim C2 counterexample: participant 7 has `granted=true` in the loaded
consent record, yet (being a bot member of the guild) its artifact is neither
relocated nor published — `process_user_recording` returns after the member
check without touching the file or the queue. -/
theorem c2_granted_bot_not_relocated_not_published :
    (process_user_recording [⟨7, "beepbot", true⟩] 1 7 "audio/raw.wav"
        [("7", true)] 5 "id1" "2026-01-01-00-00").published = none ∧
    (process_user_recording [⟨7, "beepbot", true⟩] 1 7 "audio/raw.wav"
        [("7", true)] 5 "id1" "2026-01-01-00-00").movedTo = none := by
  exact ⟨rfl, rfl⟩

/-- Claim C2 (amended): when the participant has `granted=true` AND resolves
through `guild.get_member` to a non-bot member, the artifact is moved (not
copied) to the per-participant directory keyed by sanitized username and
capture timestamp, and exactly one message with the fresh id, new path,
userId, username, channelId and guildId is published. -/
theorem c2_granted_member_relocated_published (guild : List Member)
    (guildId uid : Nat) (fp : String) (cd : ConsentRecord) (channelId : Nat)
    (i t : String) (m : Member)
    (hc : List.lookup (toString uid) cd = some true)
    (hm : getMember guild uid = some m)
    (hb : m.bot = false) :
    process_user_recording guild guildId uid fp cd channelId i t =
      { deleted := false
        movedTo := some (destPath (safeName m.username) i t)
        published := some
          { id := i, path := destPath (safeName m.username) i t, userId := uid,
            user := m.username, channelId := channelId, guildId := guildId }
        result := some (destPath (safeName m.username) i t) } := by
  have hcg : consentGet cd (toString uid) = true := by
    unfold consentGet
    rw [hc]
    rfl
  unfold process_user_recording
  rw [hcg, hm]
  simp [hb]

/-- Witness for the amended C2 at a concrete consenting non-bot member. -/
theorem c2_granted_member_relocated_published_witness :
    process_user_recording [⟨3, "bob", false⟩] 1 3 "audio/raw.wav" [("3", true)]
        5 "id1" "2026-01-01-00-00" =
      { deleted := false
        movedTo := some (destPath (safeName "bob") "id1" "2026-01-01-00-00")
        published := some
          { id := "id1", path := destPath (safeName "bob") "id1" "2026-01-01-00-00",
            userId := 3, user := "bob", channelId := 5, guildId := 1 }
        result := some (destPath (safeName "bob") "id1" "2026-01-01-00-00") } :=
  c2_granted_member_relocated_published [⟨3, "bob", false⟩] 1 3 "audio/raw.wav"
    [("3", true)] 5 "id1" "2026-01-01-00-00" ⟨3, "bob", false⟩ rfl rfl rfl

/-- Claim C6 counterexample: a bot participant whose id has `granted=true`
in the consent record — the consent check is consulted first and passes, so
the deletion branch is skipped and the artifact stays on disk, contradicting
"discarded without consulting the consent record". -/
theorem c6_granted_bot_artifact_not_deleted :
    (process_user_recording [⟨8, "helperbot", true⟩] 2 8 "audio/x.wav"
        [("8", true)] 9 "id2" "2026-02-02-00-00").deleted = false ∧
    (process_user_recording [⟨8, "helperbot", true⟩] 2 8 "audio/x.wav"
        [("8", true)] 9 "id2" "2026-02-02-00-00").movedTo = none := by
  exact ⟨rfl, rfl⟩

/-- Claim C6 (amended): a bot member's artifact never yields a segment or a
publish; but the consent record IS consulted first, so the artifact is
deleted exactly when the bot's entry is absent or `false`, and left on disk
when it is `true`. -/
theorem c6_bot_never_published (guild : List Member) (guildId uid : Nat)
    (fp : String) (cd : ConsentRecord) (channelId : Nat) (i t : String)
    (m : Member)
    (hm : getMember guild uid = some m)
    (hb : m.bot = true) :
    (process_user_recording guild guildId uid fp cd channelId i t).published = none ∧
    (process_user_recording guild guildId uid fp cd channelId i t).result = none ∧
    (process_user_recording guild guildId uid fp cd channelId i t).movedTo = none ∧
    (process_user_recording guild guildId uid fp cd channelId i t).deleted
      = !(consentGet cd (toString uid)) := by
  unfold process_user_recording
  by_cases hc : consentGet cd (toString uid)
  · rw [hc, hm]
    simp [hb]
  · simp only [Bool.not_eq_true] at hc
    rw [hc]
    simp

/-- Witness for the amended C6 at a concrete bot with `granted=true`. -/
theorem c6_bot_never_published_witness :
    (process_user_recording [⟨8, "helperbot", true⟩] 2 8 "audio/y.wav"
        [("8", true)] 9 "id3" "t3").published = none ∧
    (process_user_recording [⟨8, "helperbot", true⟩] 2 8 "audio/y.wav"
        [("8", true)] 9 "id3" "t3").result = none ∧
    (process_user_recording [⟨8, "helperbot", true⟩] 2 8 "audio/y.wav"
        [("8", true)] 9 "id3" "t3").movedTo = none ∧
    (process_user_recording [⟨8, "helperbot", true⟩] 2 8 "audio/y.wav"
        [("8", true)] 9 "id3" "t3").deleted
      = !(consentGet [("8", true)] (toString 8)) :=
  c6_bot_never_published [⟨8, "helperbot", true⟩] 2 8 "audio/y.wav"
    [("8", true)] 9 "id3" "t3" ⟨8, "helperbot", true⟩ rfl rfl

/-- Claim C3, evaluated on the claim's own scenario: 14 sequential rejection
events for guild 1, whose session is registered and connected throughout and
with the counter starting at zero.  Because `continue` fires before the
trailing `counter += 1` whenever the counter differs from 7, the counter
never moves and no error cue is ever played — the code produces 0 cues where
the claim (and spec) require 2, at events 7 and 14. -/
theorem c3_fourteen_rejections_play_no_cue :
    rejRun [(1, ⟨5, true⟩)] ⟨0, []⟩ (List.replicate 14 ⟨true, true, 1, true⟩)
      = .ok ⟨0, []⟩ := rfl

/-- Claim C7 counterexample: a malformed second-position payload aborts the
consumer loop (`json.loads` raises with no handler inside the loop), so the
well-formed event behind it is never processed — the loop does terminate. -/
theorem c7_malformed_event_aborts_stream :
    rejRun [(1, ⟨5, true⟩)] ⟨0, []⟩
        [⟨true, false, 1, true⟩, ⟨true, true, 1, true⟩] = .error () := rfl

/-- Claim C7 (amended): a message of pubsub type `message` whose payload does
not parse raises out of the `async for`, terminating the consumer; every
event after it in the stream goes unprocessed.  Nothing in `on_ready` drops
or logs it and continues. -/
theorem c7_malformed_event_raises_out_of_loop (registry : Registry)
    (st : RejState) (g : Nat) (rej : Bool) (rest : List RMsg) :
    rejRun registry st (⟨true, false, g, rej⟩ :: rest) = .error () := rfl

/-- The `remaining` list of `on_voice_user_leave` is empty exactly when every
listed channel member is a bot, has no recorded consent decision, or is the
leaving author. -/
theorem remaining_empty_iff (cd : ConsentRecord) (ev : LeaveEvent) :
    remainingMembers cd ev = [] ↔
      ∀ m ∈ ev.members,
        m.bot = true ∨ List.lookup (toString m.id) cd = none ∨
          m.id = ev.authorId := by
  unfold remainingMembers
  rw [List.filter_eq_nil_iff]
  constructor
  · intro h m hm
    have hb := h m hm
    revert hb
    cases hmb : m.bot <;>
      cases hlk : List.lookup (toString m.id) cd <;>
        by_cases hid : m.id = ev.authorId <;>
          simp [hmb, hlk, hid]
  · intro h m hm
    have hb := h m hm
    rcases hb with hb | hb | hb <;> simp [hb]

/-- Claim C4 counterexample.  First scenario: the only member left in the
channel is a non-bot with NO consent entry (undecided) — the claim says the
session keeps running, the code stops and removes it.  Second scenario: the
only member left is a non-bot with an explicit `granted=false` entry — the
claim says the session must stop (a denied participant is neither consented
nor undecided), the code keeps it running. -/
theorem c4_undecided_stops_denied_keeps :
    (on_voice_user_leave 99 [(1, ⟨5, true⟩)] []
        ⟨2, false, 5, 1, [⟨3, "bob", false⟩]⟩).removed = true ∧
    (on_voice_user_leave 99 [(1, ⟨5, true⟩)] [("3", false)]
        ⟨2, false, 5, 1, [⟨3, "bob", false⟩]⟩).removed = false := by
  exact ⟨rfl, rfl⟩

/-- Claim C4 (amended): on a voice-leave event reaching an active session on
the same channel, the session is force-stopped (task stopped, disconnected,
unregistered, departure notice sent) exactly when no non-bot member with a
RECORDED consent decision (an entry in the consent document, whether granted
or denied) other than the leaver remains; otherwise the registry is left
unchanged. -/
theorem c4_stop_iff_no_recorded_decision_remains (botUserId : Nat)
    (registry : Registry) (cd : ConsentRecord) (ev : LeaveEvent)
    (vs : VoiceState)
    (hbot : ev.authorBot = false)
    (hself : ev.authorId ≠ botUserId)
    (hreg : vsmGet registry ev.guildId = some vs)
    (hch : ev.channelId = vs.channelId) :
    ((on_voice_user_leave botUserId registry cd ev).removed = true ↔
      ∀ m ∈ ev.members,
        m.bot = true ∨ List.lookup (toString m.id) cd = none ∨
          m.id = ev.authorId) ∧
    ((on_voice_user_leave botUserId registry cd ev).removed = true →
      (on_voice_user_leave botUserId registry cd ev).departureMsg = true ∧
      (on_voice_user_leave botUserId registry cd ev).taskStopped = true ∧
      (on_voice_user_leave botUserId registry cd ev).disconnected = true ∧
      (on_voice_user_leave botUserId registry cd ev).registryAfter
        = eraseKey registry ev.guildId) ∧
    ((on_voice_user_leave botUserId registry cd ev).removed = false →
      (on_voice_user_leave botUserId registry cd ev).registryAfter
        = registry) := by
  have hor : (ev.authorBot || ev.authorId == botUserId) = false := by
    rw [hbot]
    simp [hself]
  have hne : (ev.channelId != vs.channelId) = false := by
    simp [hch]
  by_cases he : remainingMembers cd ev = []
  · have hie : (remainingMembers cd ev).isEmpty = true := by
      rw [he]
      rfl
    have hres : on_voice_user_leave botUserId registry cd ev =
        { registryAfter := eraseKey registry ev.guildId, taskStopped := true,
          disconnected := true, removed := true, departureMsg := true,
          publishes := [], stopCue := false } := by
      unfold on_voice_user_leave
      rw [hor, hreg]
      simp [hne, hie]
    rw [hres]
    refine ⟨⟨fun _ => (remaining_empty_iff cd ev).mp he, fun _ => rfl⟩,
      fun _ => ⟨rfl, rfl, rfl, rfl⟩, fun hcontra => absurd hcontra (by simp)⟩
  · have hie : (remainingMembers cd ev).isEmpty = false := by
      cases hl : remainingMembers cd ev with
      | nil => exact absurd hl he
      | cons a l => rfl
    have hres : on_voice_user_leave botUserId registry cd ev =
        leaveNoEffect registry := by
      unfold on_voice_user_leave
      rw [hor, hreg]
      simp [hne, hie]
    rw [hres]
    refine ⟨⟨fun hcontra => absurd hcontra (by simp [leaveNoEffect]),
      fun hall => absurd ((remaining_empty_iff cd ev).mpr hall) he⟩,
      fun hcontra => absurd hcontra (by simp [leaveNoEffect]),
      fun _ => rfl⟩

/-- Witness for the amended C4: the concrete state where only an undecided
non-bot member remains — the stop condition holds and the handler removes
the session. -/
theorem c4_stop_iff_no_recorded_decision_remains_witness :
    (on_voice_user_leave 99 [(1, ⟨5, true⟩)] []
        ⟨2, false, 5, 1, [⟨3, "bob", false⟩]⟩).removed = true :=
  (c4_stop_iff_no_recorded_decision_remains 99 [(1, ⟨5, true⟩)] []
      ⟨2, false, 5, 1, [⟨3, "bob", false⟩]⟩ ⟨5, true⟩ rfl (by decide) rfl
      rfl).1.mpr (by decide)

/-- Claim C5 counterexample: the same concrete state (guild 1, channel 5,
participant 3 with `granted=true` and one pending artifact) handled by the
leave-triggered stop versus by `stop_recording`.  The leave path publishes
nothing and plays no stop cue even though it tears the session down, while
`stop_recording` flushes and publishes the consented artifact and plays the
stop cue — the two stops do NOT have the same flush/publish effects. -/
theorem c5_leave_stop_and_stop_differ :
    (on_voice_user_leave 99 [(1, ⟨5, true⟩)] [("3", true)]
        ⟨3, false, 5, 1, []⟩).removed = true ∧
    (on_voice_user_leave 99 [(1, ⟨5, true⟩)] [("3", true)]
        ⟨3, false, 5, 1, []⟩).publishes = [] ∧
    (on_voice_user_leave 99 [(1, ⟨5, true⟩)] [("3", true)]
        ⟨3, false, 5, 1, []⟩).stopCue = false ∧
    (stop_recording [(1, ⟨5, true⟩)] 1 [⟨3, "bob", false⟩] [("3", true)]
        [(3, "audio/raw.wav")] (fun _ => "u1") "2026-01-01-00-00").publishes
      ≠ [] ∧
    (stop_recording [(1, ⟨5, true⟩)] 1 [⟨3, "bob", false⟩] [("3", true)]
        [(3, "audio/raw.wav")] (fun _ => "u1") "2026-01-01-00-00").stopCue
      = true := by
  refine ⟨rfl, rfl, rfl, ?_, rfl⟩
  decide

/-- Claim C5 (amended): the leave-triggered stop is NOT the same as
`stop_recording`.  On every input, `on_voice_user_leave` publishes nothing
and plays no stop cue; when it does stop the session it only cancels the
rotation task, disconnects and unregisters.  `stop_recording` on a registered
session, by contrast, performs the final consent-filtered flush (publishing
exactly the flush's consented segments) and plays the stop cue. -/
theorem c5_leave_stop_performs_no_flush (botUserId : Nat) (registry : Registry)
    (cd : ConsentRecord) (ev : LeaveEvent) :
    (on_voice_user_leave botUserId registry cd ev).publishes = [] ∧
    (on_voice_user_leave botUserId registry cd ev).stopCue = false ∧
    ((on_voice_user_leave botUserId registry cd ev).removed = true →
      (on_voice_user_leave botUserId registry cd ev).taskStopped = true ∧
      (on_voice_user_leave botUserId registry cd ev).disconnected = true ∧
      (on_voice_user_leave botUserId registry cd ev).registryAfter
        = eraseKey registry ev.guildId) ∧
    ∀ guild pending ident ts vs,
      vsmGet registry ev.guildId = some vs →
      (stop_recording registry ev.guildId guild cd pending ident ts).publishes
        = flushPublishes guild ev.guildId vs.channelId cd pending ident ts ∧
      (stop_recording registry ev.guildId guild cd pending ident ts).stopCue
        = true := by
  refine ⟨?_, ?_, ?_, ?_⟩
  · unfold on_voice_user_leave leaveNoEffect
    split
    · rfl
    · split
      · rfl
      · split
        · rfl
        · split
          · rfl
          · rfl
  · unfold on_voice_user_leave leaveNoEffect
    split
    · rfl
    · split
      · rfl
      · split
        · rfl
        · split
          · rfl
          · rfl
  · intro hrem
    unfold on_voice_user_leave leaveNoEffect at *
    revert hrem
    split
    · intro hcontra
      exact absurd hcontra (by simp)
    · split
      · intro hcontra
        exact absurd hcontra (by simp)
      · split
        · intro hcontra
          exact absurd hcontra (by simp)
        · split
          · intro _
            exact ⟨rfl, rfl, rfl⟩
          · intro hcontra
            exact absurd hcontra (by simp)
  · intro guild pending ident ts vs hvs
    unfold stop_recording vsmRemove
    unfold vsmGet at hvs
    rw [hvs]
    exact ⟨rfl, rfl⟩

/-- Witness for the amended C5: at the counterexample's concrete state the
leave handler publishes nothing while `stop_recording` publishes the flush
output of the pending consented artifact. -/
theorem c5_leave_stop_performs_no_flush_witness :
    (on_voice_user_leave 99 [(1, ⟨5, true⟩)] [("3", true)]
        ⟨3, false, 5, 1, []⟩).publishes = [] ∧
    (stop_recording [(1, ⟨5, true⟩)] 1 [⟨3, "bob", false⟩] [("3", true)]
        [(3, "audio/raw.wav")] (fun _ => "u1") "2026-01-01-00-00").publishes
      = flushPublishes [⟨3, "bob", false⟩] 1 5 [("3", true)]
          [(3, "audio/raw.wav")] (fun _ => "u1") "2026-01-01-00-00" :=
  ⟨(c5_leave_stop_performs_no_flush 99 [(1, ⟨5, true⟩)] [("3", true)]
      ⟨3, false, 5, 1, []⟩).1,
   ((c5_leave_stop_performs_no_flush 99 [(1, ⟨5, true⟩)] [("3", true)]
      ⟨3, false, 5, 1, []⟩).2.2.2 [⟨3, "bob", false⟩] [(3, "audio/raw.wav")]
      (fun _ => "u1") "2026-01-01-00-00" ⟨5, true⟩ rfl).1⟩

/-- Claim C8 counterexample: guild 1 already has a registered recording AND
the requester has no voice channel; the command replies `NotInVoice`, not
`AlreadyRecording`, because the voice check comes first in
`start_recording`. -/
theorem c8_both_failures_reports_not_in_voice :
    start_recording [(1, ⟨5, true⟩)] 1 none = .notInVoice ∧
    start_recording [(1, ⟨5, true⟩)] 1 none ≠ .alreadyRecording := by
  exact ⟨rfl, by decide⟩

/-- Claim C8 (amended): `start_recording` checks its guards in the opposite
order to the claim — `NotInVoice` first, `AlreadyRecording` only for a
requester who IS in voice; when both failure conditions hold the reported
error is `NotInVoice`. -/
theorem c8_not_in_voice_checked_first (registry : Registry) (guildId c : Nat)
    (hreg : (vsmGet registry guildId).isSome = true) :
    start_recording registry guildId none = .notInVoice ∧
    start_recording registry guildId (some c) = .alreadyRecording := by
  unfold start_recording
  exact ⟨rfl, by simp [hreg]⟩

/-- Witness for the amended C8 on a concrete occupied registry. -/
theorem c8_not_in_voice_checked_first_witness :
    start_recording [(1, ⟨5, true⟩)] 1 none = .notInVoice ∧
    start_recording [(1, ⟨5, true⟩)] 1 (some 9) = .alreadyRecording :=
  c8_not_in_voice_checked_first [(1, ⟨5, true⟩)] 1 9 rfl

/-- Lemma: `eraseKey` does not disturb lookups of other guilds. -/
theorem lookup_eraseKey (m : Registry) (g g2 : Nat) (hne : g2 ≠ g) :
    List.lookup g2 (eraseKey m g) = List.lookup g2 m := by
  induction m with
  | nil => rfl
  | cons p rest ih =>
    unfold eraseKey at ih ⊢
    rw [List.filter_cons]
    by_cases hp : p.1 = g
    · have hb : (p.1 != g) = false := by simp [hp]
      rw [hb]
      simp only [Bool.false_eq_true, if_false]
      rw [ih]
      have hb2 : (g2 == p.1) = false := by
        simp [hp, hne]
      cases p with
      | mk k v =>
        simp only at hb2
        rw [List.lookup]
        rw [hb2]
    · have hb : (p.1 != g) = true := by simp [hp]
      rw [hb]
      simp only [if_true]
      cases p with
      | mk k v =>
        rw [List.lookup, List.lookup]
        cases hk : (g2 == k)
        · exact ih
        · rfl

/-- Claim C9 counterexample: adding a second voice state for guild 1 on a
registry that already holds one is not rejected — the prior entry is
replaced, so `get` afterwards returns the new state, not the preserved old
one. -/
theorem c9_add_overwrites_existing_entry :
    vsmGet (vsmAdd (vsmAdd [] 1 ⟨5, true⟩) 1 ⟨6, false⟩) 1 = some ⟨6, false⟩ ∧
    vsmGet (vsmAdd (vsmAdd [] 1 ⟨5, true⟩) 1 ⟨6, false⟩) 1 ≠ some ⟨5, true⟩ := by
  exact ⟨rfl, by decide⟩

/-- Claim C9 (amended): `VoiceStateManager.add` is a plain dictionary
assignment with last-write-wins semantics — it never rejects: after
`add g vs` the entry for `g` is `vs` regardless of prior content, and other
guilds' entries are untouched.  The one-session-per-guild invariant is
enforced only by `start_recording`'s preceding `get` check, not by `add`. -/
theorem c9_add_last_write_wins (m : Registry) (g : Nat) (vs : VoiceState)
    (g2 : Nat) (hne : g2 ≠ g) :
    vsmGet (vsmAdd m g vs) g = some vs ∧
    vsmGet (vsmAdd m g vs) g2 = vsmGet m g2 := by
  constructor
  · unfold vsmGet vsmAdd
    rw [List.lookup]
    simp
  · unfold vsmGet vsmAdd
    rw [List.lookup]
    have hb : (g2 == g) = false := by simp [hne]
    rw [hb]
    exact lookup_eraseKey m g g2 hne

/-- Witness for the amended C9 on a two-guild registry. -/
theorem c9_add_last_write_wins_witness :
    vsmGet (vsmAdd [(2, ⟨7, false⟩)] 1 ⟨5, true⟩) 1 = some ⟨5, true⟩ ∧
    vsmGet (vsmAdd [(2, ⟨7, false⟩)] 1 ⟨5, true⟩) 2 = vsmGet [(2, ⟨7, false⟩)] 2 :=
  c9_add_last_write_wins [(2, ⟨7, false⟩)] 1 ⟨5, true⟩ 2 (by decide)

/-- Claim C10: a consent-button response whose responder differs from the
participant id embedded in the custom id leaves the consent store untouched
(no load-mutate-save) and yields only the ephemeral rejection reply; and on
ANY input, a run of the handler that changes the store must come from the
embedded participant's own response. -/
theorem c10_mismatched_responder_never_mutates (responderId : Nat)
    (customId : String) (store : ConsentRecord) (action uidStr : String)
    (uid : Nat)
    (hp : parseCustomId customId = some (action, uidStr))
    (hn : parseNat uidStr = some uid)
    (hne : responderId ≠ uid) :
    handle_consent_response responderId customId store
        = (store, ConsentReply.rejection) ∧
    ∀ r2 c2 s2, (handle_consent_response r2 c2 s2).1 ≠ s2 →
      ∃ a2 u2 n2, parseCustomId c2 = some (a2, u2) ∧ parseNat u2 = some n2 ∧
        r2 = n2 := by
  constructor
  · unfold handle_consent_response
    rw [hp]
    simp [hn, hne]
  · intro r2 c2 s2 hchange
    unfold handle_consent_response at hchange
    cases hp2 : parseCustomId c2 with
    | none =>
      rw [hp2] at hchange
      exact absurd rfl hchange
    | some au =>
      rw [hp2] at hchange
      cases au with
      | mk a2 u2 =>
        cases hn2 : parseNat u2 with
        | none =>
          simp only [hn2] at hchange
          exact absurd rfl hchange
        | some n2 =>
          simp only [hn2] at hchange
          by_cases hr : r2 = n2
          · exact ⟨a2, u2, n2, rfl, hn2, hr⟩
          · have hb : (r2 != n2) = true := by simp [hr]
            rw [hb] at hchange
            simp at hchange

/-- Witness for C10: responder 42 answers participant 7's consent button;
the store is unchanged and the reply is the ephemeral rejection. -/
theorem c10_mismatched_responder_never_mutates_witness :
    handle_consent_response 42 "consent_allow_7" [("9", false)]
      = ([("9", false)], ConsentReply.rejection) :=
  (c10_mismatched_responder_never_mutates 42 "consent_allow_7" [("9", false)]
    "allow" "7" 7 (by decide) (by decide) (by decide)).1

end WhisperBot
